import Mathlib

/-!
Verification development for the audio-reactive visualization engine of
ace-step-ui (source: src/components/VideoGeneratorModal.tsx).

The engine is shallowly embedded: JavaScript numbers are modelled as
rationals, `Uint8Array` frequency frames as lists of naturals, canvas
drawing as explicit command lists, and the ambient `Math.random` source as
an explicit oracle of rationals indexed by call site.
Trigonometric functions (`Math.sin`, `Math.cos`, `Math.PI`) are modelled by
an abstract `TrigModel`, since none of the verified properties depend on
their values.
-/

namespace VideoGen

/-! ## The offline spectrum analysis (analyzeAudioOffline) -/

/-- A decoded mono audio buffer, as consumed by `analyzeAudioOffline`:
a sample rate, a number of samples, and the sample value at each index
(JS `audioBuffer.getChannelData(0)`); indices at or beyond `length` are
never read by the embedded code. -/
structure AudioBuffer where
  sampleRate : ℕ
  length : ℕ
  data : ℕ → ℚ

/-- `Math.ceil(audioBuffer.duration * fps)` with `duration = length / sampleRate`. -/
def totalFramesOf (buf : AudioBuffer) (fps : ℕ) : ℕ :=
  (Int.ceil ((buf.length : ℚ) / (buf.sampleRate : ℚ) * (fps : ℚ))).toNat

/-- The inner summation loop of `analyzeAudioOffline`:
`for (i = lo; i < lo + n && i < bound; i++) sum += Math.abs(channelData[i])`. -/
def sumAbsIf (d : ℕ → ℚ) (lo n bound : ℕ) : ℚ :=
  ∑ k in Finset.range n, if lo + k < bound then |d (lo + k)| else 0

/-- One bin of one frame of `analyzeAudioOffline`
(VideoGeneratorModal.tsx lines 419-439).  The window anchored at
`frame * Math.floor(sampleRate / fps)` extends `fftSize = 2048` samples
(clipped to the end of the buffer); `binSize` is
`Math.max(1, Math.floor((endSample - startSample) / 1024))`, and the bin
value is `Math.min(255, Math.floor(avg * 512))` with `avg = sum / binSize`. -/
def analyzeBin (buf : AudioBuffer) (fps frame bin : ℕ) : ℕ :=
  let samplesPerFrame := buf.sampleRate / fps
  let startSample := frame * samplesPerFrame
  let endSample := min (startSample + 2048) buf.length
  let binSize := max 1 ((endSample - startSample) / 1024)
  let binStart := startSample + bin * binSize
  let binEnd := min (binStart + binSize) endSample
  let s := sumAbsIf buf.data binStart (binEnd - binStart) buf.length
  min 255 (Int.toNat ⌊s / (binSize : ℚ) * 512⌋)

/-- `analyzeAudioOffline(audioBuffer, fps)`: one 1024-bin frame per output
frame (VideoGeneratorModal.tsx lines 406-445). -/
def analyzeAudioOffline (buf : AudioBuffer) (fps : ℕ) : List (List ℕ) :=
  (List.range (totalFramesOf buf fps)).map fun frame =>
    (List.range 1024).map fun bin => analyzeBin buf fps frame bin

/-- Modelled from the spec wording of claim C1 (spec section 4.1): partition
the buffer into per-frame windows of `sampleRate/fps` samples, subdivide each
window into 1024 equal sub-bins, and set each bin value to
`min(255, floor(mean(|sample|) * 512))` over that sub-bin's samples (sub-bins
clipped to the window and to the buffer; the mean divides by the number of
samples actually present). -/
def specBin (buf : AudioBuffer) (fps frame bin : ℕ) : ℕ :=
  let spf := buf.sampleRate / fps
  let wstart := frame * spf
  let wend := min (wstart + spf) buf.length
  let sbs := spf / 1024
  let lo := wstart + bin * sbs
  let hi := min (lo + sbs) wend
  let cnt := hi - lo
  let s := sumAbsIf buf.data lo cnt buf.length
  let mean := if cnt = 0 then 0 else s / (cnt : ℚ)
  min 255 (Int.toNat ⌊mean * 512⌋)

/-- The spec-described analysis of claim C1, frame by frame. -/
def specAnalyzeAudioOffline (buf : AudioBuffer) (fps : ℕ) : List (List ℕ) :=
  (List.range (totalFramesOf buf fps)).map fun frame =>
    (List.range 1024).map fun bin => specBin buf fps frame bin

/-- The amended description of one analysis bin: windows are anchored at
multiples of `floor(sampleRate/fps)` but extend `2048` samples (clipped to
the buffer end), each window is cut into 1024 sub-bins of
`max(1, floor(windowLength/1024))` consecutive samples, and each bin value is
`min(255, floor(sum(|sample|)/binSize * 512))` where the sum ranges over the
sub-bin's samples that lie inside the window. -/
def amendedBin (buf : AudioBuffer) (fps frame bin : ℕ) : ℕ :=
  let spf := buf.sampleRate / fps
  let wstart := frame * spf
  let wend := min (wstart + 2048) buf.length
  let wlen := wend - wstart
  let s := max 1 (wlen / 1024)
  let lo := wstart + bin * s
  let total := ∑ k in Finset.range s, if lo + k < wend then |buf.data (lo + k)| else 0
  min 255 (Int.toNat ⌊total / (s : ℚ) * 512⌋)

/-- The amended analysis, frame by frame. -/
def amendedAnalyzeAudioOffline (buf : AudioBuffer) (fps : ℕ) : List (List ℕ) :=
  (List.range (totalFramesOf buf fps)).map fun frame =>
    (List.range 1024).map fun bin => amendedBin buf fps frame bin

lemma sum_window_eq (d : ℕ → ℚ) (lo s wend bound : ℕ) (hwb : wend ≤ bound) :
    sumAbsIf d lo (min (lo + s) wend - lo) bound
      = ∑ k in Finset.range s, if lo + k < wend then |d (lo + k)| else 0 := by
  unfold sumAbsIf
  have h1 : ∀ k ∈ Finset.range (min (lo + s) wend - lo),
      (if lo + k < bound then |d (lo + k)| else 0) = |d (lo + k)| := by
    intro k hk
    rw [if_pos]
    have := Finset.mem_range.1 hk
    omega
  rw [Finset.sum_congr rfl h1, ← Finset.sum_filter]
  have h2 : (Finset.range s).filter (fun k => lo + k < wend)
      = Finset.range (min (lo + s) wend - lo) := by
    ext k
    simp only [Finset.mem_filter, Finset.mem_range]
    omega
  rw [h2]

lemma analyzeBin_eq_amendedBin (buf : AudioBuffer) (fps frame bin : ℕ) :
    analyzeBin buf fps frame bin = amendedBin buf fps frame bin := by
  simp only [analyzeBin, amendedBin]
  rw [sum_window_eq]
  exact min_le_right _ _

/-- Claim C1 (amended): the offline spectrum analysis anchors per-frame
windows at multiples of floor(sampleRate/fps) but gives each window the
fixed FFT length 2048 (clipped to the buffer end), subdivides it into 1024
sub-bins of max(1, floor(windowLength/1024)) consecutive samples, and sets
each bin value to min(255, floor(sum(|sample|)/binSize * 512)) over the
sub-bin's samples inside the window. -/
theorem c1_analyze_amended (buf : AudioBuffer) (fps : ℕ) :
    analyzeAudioOffline buf fps = amendedAnalyzeAudioOffline buf fps := by
  unfold analyzeAudioOffline amendedAnalyzeAudioOffline
  simp only [analyzeBin_eq_amendedBin]

lemma getD_map_range {α : Type} (g : ℕ → α) (d : α) (n i : ℕ) (h : i < n) :
    ((List.range n).map g).getD i d = g i := by
  rw [List.getD_eq_getElem?_getD, List.getElem?_map, List.getElem?_range h]
  rfl

/-- The concrete buffer refuting claim C1 as stated: 44.1 kHz, 2940 samples
(two 1470-sample output frames at fps = 30), silent except sample 1 at
amplitude 1/2. -/
def c1Buf : AudioBuffer :=
  ⟨44100, 2940, fun i => if i = 1 then 1 / 2 else 0⟩

lemma c1Buf_totalFrames : totalFramesOf c1Buf 30 = 2 := by
  norm_num [totalFramesOf, c1Buf]
  rfl

lemma c1Buf_analyzeBin : analyzeBin c1Buf 30 0 0 = 128 := by
  simp only [analyzeBin, c1Buf, sumAbsIf]
  norm_num [Finset.sum_range_succ]
  rw [show |(1 : ℚ) / 2| = 1 / 2 by norm_num]
  norm_num
  rfl

lemma c1Buf_specBin : specBin c1Buf 30 0 0 = 0 := by
  simp only [specBin, c1Buf, sumAbsIf]
  norm_num [Finset.sum_range_succ]

/-- Claim C1 (counterexample): at 44.1 kHz and fps = 30 (the parameters the
export actually uses) the per-frame window of the code is 2048 samples, not
sampleRate/fps = 1470, and its sub-bins hold 2 samples, not 1; on a buffer
that is silent except for sample 1, bin 0 of frame 0 is 128 in the code but
0 under the spec wording. -/
theorem c1_counterexample :
    analyzeAudioOffline c1Buf 30 ≠ specAnalyzeAudioOffline c1Buf 30 := by
  intro h
  have h0 : ((analyzeAudioOffline c1Buf 30).getD 0 []).getD 0 0
      = ((specAnalyzeAudioOffline c1Buf 30).getD 0 []).getD 0 0 := by rw [h]
  rw [analyzeAudioOffline, specAnalyzeAudioOffline, c1Buf_totalFrames] at h0
  rw [getD_map_range _ _ _ _ (by norm_num), getD_map_range _ _ _ _ (by norm_num),
    getD_map_range _ _ _ _ (by norm_num), getD_map_range _ _ _ _ (by norm_num)] at h0
  rw [c1Buf_analyzeBin, c1Buf_specBin] at h0
  exact absurd h0 (by norm_num)

/-- Claim C9: a 10-second mono buffer at 44.1 kHz analyzed at fps = 30
yields exactly 300 frames, each of length 1024 with all values in [0, 255],
for every possible sample content. -/
theorem c9_spectrum_shape (d : ℕ → ℚ) :
    (analyzeAudioOffline ⟨44100, 441000, d⟩ 30).length = 300 ∧
    ∀ fr ∈ analyzeAudioOffline ⟨44100, 441000, d⟩ 30,
      fr.length = 1024 ∧ ∀ v ∈ fr, v ≤ 255 := by
  have ht : totalFramesOf ⟨44100, 441000, d⟩ 30 = 300 := by
    unfold totalFramesOf
    norm_num
    rfl
  constructor
  · simp [analyzeAudioOffline, ht]
  · intro fr hfr
    simp only [analyzeAudioOffline, List.mem_map, List.mem_range] at hfr
    obtain ⟨i, _, rfl⟩ := hfr
    refine ⟨by simp, ?_⟩
    intro v hv
    simp only [List.mem_map, List.mem_range] at hv
    obtain ⟨b, _, rfl⟩ := hv
    simp only [analyzeBin]
    exact min_le_left _ _

/-! ## Bass extraction and pulse factor -/

/-- The bass computation of the offline renderer (renderOffline, lines
579-581): the sum of the first 20 bins of the frequency frame divided
by 20. -/
def bassOffline (data : List ℕ) : ℚ :=
  (∑ i in Finset.range 20, (data.getD i 0 : ℚ)) / 20

/-- The bass computation of the live render loop (renderLoop, lines
1062-1064), textually identical to the offline one. -/
def bassLive (data : List ℕ) : ℚ :=
  (∑ i in Finset.range 20, (data.getD i 0 : ℚ)) / 20

/-- normBass = bass / 255. -/
def normBassOf (bass : ℚ) : ℚ := bass / 255

/-- pulse = 1 + normBass * 0.15. -/
def pulseOf (normBass : ℚ) : ℚ := 1 + normBass * (3 / 20)

lemma bassOffline_eq_bassLive (data : List ℕ) : bassOffline data = bassLive data := rfl

lemma bassOffline_nonneg (data : List ℕ) : 0 ≤ bassOffline data := by
  unfold bassOffline
  have : 0 ≤ ∑ i in Finset.range 20, (data.getD i 0 : ℚ) :=
    Finset.sum_nonneg fun i _ => by positivity
  positivity

lemma bassOffline_le (data : List ℕ) (h : ∀ i < 20, data.getD i 0 ≤ 255) :
    bassOffline data ≤ 255 := by
  unfold bassOffline
  have hsum : (∑ i in Finset.range 20, (data.getD i 0 : ℚ)) ≤ 20 * 255 := by
    calc (∑ i in Finset.range 20, (data.getD i 0 : ℚ))
        ≤ ∑ _i in Finset.range 20, (255 : ℚ) :=
          Finset.sum_le_sum fun i hi => by
            exact_mod_cast h i (Finset.mem_range.1 hi)
      _ = 20 * 255 := by simp [Finset.sum_const]
  linarith

/-- Claim C8: for a frequency frame whose bin values lie in [0,255], both
the live and the offline renderer compute the same bass, namely the mean of
bins [0,20); normBass = bass/255 lies in [0,1]; and the pulse factor
1 + normBass * 0.15 lies in [1, 1.15]. -/
theorem c8_bass_pulse_bounds (data : List ℕ) (h : ∀ i < 20, data.getD i 0 ≤ 255) :
    bassOffline data = bassLive data ∧
    0 ≤ normBassOf (bassOffline data) ∧ normBassOf (bassOffline data) ≤ 1 ∧
    1 ≤ pulseOf (normBassOf (bassOffline data)) ∧
    pulseOf (normBassOf (bassOffline data)) ≤ 23 / 20 := by
  have h0 := bassOffline_nonneg data
  have h255 := bassOffline_le data h
  unfold normBassOf pulseOf
  refine ⟨bassOffline_eq_bassLive data, by positivity, by linarith, by nlinarith, by nlinarith⟩

/-- Witness for claim C8 at the all-255 frame. -/
theorem c8_bass_pulse_bounds_witness :
    (∀ i < 20, (List.replicate 1024 255).getD i 0 ≤ 255) ∧
    (bassOffline (List.replicate 1024 255) = bassLive (List.replicate 1024 255) ∧
     0 ≤ normBassOf (bassOffline (List.replicate 1024 255)) ∧
     normBassOf (bassOffline (List.replicate 1024 255)) ≤ 1 ∧
     1 ≤ pulseOf (normBassOf (bassOffline (List.replicate 1024 255))) ∧
     pulseOf (normBassOf (bassOffline (List.replicate 1024 255))) ≤ 23 / 20) :=
  ⟨by decide, c8_bass_pulse_bounds (List.replicate 1024 255) (by decide)⟩

/-! ## The particle system (drawParticles) -/

/-- Abstract model of Math.sin, Math.cos and Math.PI.  The verified
properties are independent of the interpretation of these functions. -/
structure TrigModel where
  sin : ℚ → ℚ
  cos : ℚ → ℚ
  pi : ℚ

/-- JS truncation toward zero, as used by the JS remainder operator. -/
def jsTrunc (q : ℚ) : ℤ := if 0 ≤ q then ⌊q⌋ else ⌈q⌉

/-- The JS remainder operator a % b (sign follows the dividend).  For b = 0
the JS result is NaN, which never feeds back into the verified properties. -/
def jsMod (a b : ℚ) : ℚ := a - b * (jsTrunc (a / b) : ℚ)

/-- The ((a % b) + b) % b positive-remainder idiom of drawParticles. -/
def jsPosMod (a b : ℚ) : ℚ := jsMod (jsMod a b + b) b

/-- The four particle sub-populations of drawParticles. -/
inductive ParticleKind
  | rising
  | burst
  | orbital
  | dust
deriving DecidableEq

/-- One drawn particle: position, radius, alpha and fill color. -/
structure ParticleCmd where
  kind : ParticleKind
  x : ℚ
  y : ℚ
  size : ℚ
  alpha : ℚ
  color : String
deriving DecidableEq

/-- One rising particle (drawParticles, lines 1550-1567). -/
def risingParticle (T : TrigModel) (w h time nb : ℚ) (color : String) (i : ℕ) :
    ParticleCmd :=
  let seed : ℚ := (i : ℚ) * (1271 / 10)
  let xBase := jsPosMod (T.sin seed * 10000) w
  let drift := T.sin (time * 2 + seed) * 30
  let x := xBase + drift
  let speed : ℚ := 20 + ((i % 7 : ℕ) : ℚ) * 15
  let y := h - jsMod (time * speed + seed * 10) (h + 100)
  let size := 2 + ((i % 4 : ℕ) : ℚ) + nb * 3
  let twinkle := 1 / 2 + T.sin (time * 8 + seed) * (3 / 10)
  ⟨ParticleKind.rising, x, y, size, twinkle * (2 / 5 + nb * (2 / 5)), color⟩

/-- One burst particle (drawParticles, lines 1570-1592); drawn only when
size > 0.5 and alpha > 0.1. -/
def burstParticle (T : TrigModel) (w h time nb : ℚ) (color : String)
    (burstCount i : ℕ) : Option ParticleCmd :=
  let angle := ((i : ℚ) / (burstCount : ℚ)) * T.pi * 2 + time * (3 / 10)
  let seed : ℚ := (i : ℚ) * (2345 / 10)
  let burstPhase := jsMod (time * (3 / 2) + seed * (1 / 100)) 3
  let burstProgress := burstPhase / 3
  let maxDist := 300 + nb * 200
  let dist := burstProgress * maxDist
  let x := w / 2 + T.cos angle * dist
  let y := h / 2 + T.sin angle * dist
  let size := (1 - burstProgress) * (3 + nb * 4)
  let alpha := (1 - burstProgress) * (3 / 5 + nb * (2 / 5))
  if 1 / 2 < size ∧ 1 / 10 < alpha then
    some ⟨ParticleKind.burst, x, y, size, alpha, color⟩
  else none

/-- One orbital sparkle (drawParticles, lines 1595-1612); always white. -/
def orbitalParticle (T : TrigModel) (w h time nb : ℚ) (orbitalCount i : ℕ) :
    ParticleCmd :=
  let orbitRadius := 150 + ((i % 4 : ℕ) : ℚ) * 80 + nb * 50
  let speed := (if i % 2 = 0 then (1 : ℚ) else -1) * (4 / 5 + ((i % 3 : ℕ) : ℚ) * (3 / 10))
  let angle := time * speed + ((i : ℚ) / (orbitalCount : ℚ)) * T.pi * 2
  let x := w / 2 + T.cos angle * orbitRadius
  let y := h / 2 + T.sin angle * orbitRadius
  let sparkle := 1 / 2 + T.sin (time * 12 + (i : ℚ) * 5) * (1 / 2)
  ⟨ParticleKind.orbital, x, y, 2 + sparkle * 2 + nb * 2, sparkle * (4 / 5), "#fff"⟩

/-- One dust particle (drawParticles, lines 1615-1630); always white. -/
def dustParticle (T : TrigModel) (w h time nb : ℚ) (i : ℕ) : ParticleCmd :=
  let seed : ℚ := (i : ℚ) * (2839 / 5)
  let x := jsPosMod (T.sin seed * 10000) w
  let y := jsPosMod (T.cos seed * 10000) h
  let drift := T.sin (time + seed) * 2
  let size := 1 + T.sin (time * 3 + seed) * (1 / 2)
  ⟨ParticleKind.dust, x + drift, y, size, 1 / 5 + nb * (1 / 5), "#fff"⟩

/-- drawParticles (lines 1543-1634): 40 percent rising, 35 percent burst,
15 percent orbital, 10 percent dust particles, in draw order.  The ambient
Math.random stream is passed in because it is available to every canvas
routine, but drawParticles never samples it. -/
def drawParticlesCmds (T : TrigModel) (w h time bass : ℚ) (count : ℕ)
    (color : String) (rand : ℕ → ℚ) : List ParticleCmd :=
  let nb := bass / 255
  let risingCount := Int.toNat ⌊(count : ℚ) * (2 / 5)⌋
  let burstCount := Int.toNat ⌊(count : ℚ) * (7 / 20)⌋
  let orbitalCount := Int.toNat ⌊(count : ℚ) * (3 / 20)⌋
  let dustCount := Int.toNat ⌊(count : ℚ) * (1 / 10)⌋
  (List.range risingCount).map (risingParticle T w h time nb color)
    ++ (List.range burstCount).filterMap (burstParticle T w h time nb color burstCount)
    ++ (List.range orbitalCount).map (orbitalParticle T w h time nb orbitalCount)
    ++ (List.range dustCount).map (dustParticle T w h time nb)

/-- Claim C7: the particle system is deterministic: at any fixed
(canvas size, time, bass, count, color) input it draws the same particles
(positions, sizes, alphas, for all four sub-populations) no matter what the
ambient Math.random stream returns, because every attribute is derived only
from the particle index, the time argument and those inputs; moreover each
particle drawn by the four sub-populations is exactly the one its index and
the time determine through risingParticle, burstParticle, orbitalParticle
and dustParticle. -/
theorem c7_particles_deterministic (T : TrigModel) (w h time bass : ℚ)
    (count : ℕ) (color : String) (rand rand2 : ℕ → ℚ) :
    drawParticlesCmds T w h time bass count color rand
      = drawParticlesCmds T w h time bass count color rand2 ∧
    drawParticlesCmds T w h time bass count color rand
      = (List.range (Int.toNat ⌊(count : ℚ) * (2 / 5)⌋)).map
          (risingParticle T w h time (bass / 255) color)
        ++ (List.range (Int.toNat ⌊(count : ℚ) * (7 / 20)⌋)).filterMap
          (burstParticle T w h time (bass / 255) color
            (Int.toNat ⌊(count : ℚ) * (7 / 20)⌋))
        ++ (List.range (Int.toNat ⌊(count : ℚ) * (3 / 20)⌋)).map
          (orbitalParticle T w h time (bass / 255)
            (Int.toNat ⌊(count : ℚ) * (3 / 20)⌋))
        ++ (List.range (Int.toNat ⌊(count : ℚ) * (1 / 10)⌋)).map
          (dustParticle T w h time (bass / 255)) :=
  ⟨rfl, rfl⟩

/-! ## The per-frame rendering pipeline

Both renderOffline (lines 585-817) and renderLoop (lines 1068-1308) are
embedded as functions producing the ordered list of drawing stages executed
for one frame.  Each stage command carries the parameters the code computes
for it; inner pixel loops (scanline rows, grain pixels) are represented by
one command carrying the loop parameters.  Each Math.random() call site is
modelled by reading an ambient oracle `rand : ℕ → ℚ` at a fixed index
(0,1 background shake; 2,3 preset shake; 4 chromatic glitch trigger;
5 glitch trigger; 6-9 glitch block color and rectangle; 10-12 the glitch
slice parameters of the live loop); call sites occurring on corresponding
source lines of the two loops share an index, which couples the two
otherwise independent random sources for comparison. -/

/-- The ten presets. -/
inductive PresetType
  | ncsCircle
  | linearBars
  | dualMirror
  | centerWave
  | orbital
  | digitalRain
  | hexagon
  | shockwave
  | oscilloscope
  | minimal
deriving DecidableEq

/-- VisualizerConfig. -/
structure VisualizerConfig where
  preset : PresetType
  primaryColor : String
  secondaryColor : String
  bgDim : ℚ
  particleCount : ℕ
deriving DecidableEq

/-- EffectConfig: the 13 effect toggles. -/
structure EffectConfig where
  shake : Bool
  glitch : Bool
  vhs : Bool
  cctv : Bool
  scanlines : Bool
  chromatic : Bool
  bloom : Bool
  filmGrain : Bool
  pixelate : Bool
  strobe : Bool
  vignette : Bool
  hueShift : Bool
  letterbox : Bool
deriving DecidableEq

/-- EffectIntensities: the 13 effect intensities. -/
structure EffectIntensities where
  shake : ℚ
  glitch : ℚ
  vhs : ℚ
  cctv : ℚ
  scanlines : ℚ
  chromatic : ℚ
  bloom : ℚ
  filmGrain : ℚ
  pixelate : ℚ
  strobe : ℚ
  vignette : ℚ
  hueShift : ℚ
  letterbox : ℚ
deriving DecidableEq

/-- TextLayer. -/
structure TextLayer where
  id : String
  text : String
  x : ℚ
  y : ℚ
  size : ℚ
  color : String
  font : String
deriving DecidableEq

/-- One per-frame drawing stage with the parameters the code computes. -/
inductive Cmd
  | clear
  | bg (alpha zoom : ℚ) (shake : Option (ℚ × ℚ))
  | presetDraw (p : PresetType) (shake : Option (ℚ × ℚ))
  | particles (count : ℕ) (color : String)
  | albumRing (pulse : ℚ) (glowColor : String)
  | albumImage
  | albumPlaceholder
  | pixelate (pixelSize : ℕ)
  | textDraw (layer : TextLayer) (size : ℚ)
  | scanlines (alpha : ℚ)
  | chroma (offset intensity : ℚ)
  | glitchSlice (sliceH sliceY offset : ℚ)
  | glitchBlock (color : String) (x y rectW : ℚ)
  | cctvTint (alpha : ℚ)
  | cctvVignette
  | cctvText (s : String)
  | bloom (intensity : ℚ)
  | filmGrain (stride : ℕ) (amount : ℚ)
  | strobe (alpha : ℚ)
  | vignette (alpha : ℚ)
  | hueShift (degrees : ℚ)
  | letterbox (barHeight : ℚ)
deriving DecidableEq

/-- renderOffline background stage (lines 610-626). -/
def offBgSeg (bgPresent shake : Bool) (shakeI bgDim nb time : ℚ) (T : TrigModel)
    (rand : ℕ → ℚ) : List Cmd :=
  if bgPresent then
    [Cmd.bg (1 - bgDim) (1 + T.sin (time * (1 / 2)) * (1 / 20))
      (if shake && decide (3 / 5 - shakeI * (3 / 10) < nb) then
        some ((rand 0 - 1 / 2) * (shakeI * 50) * nb, (rand 1 - 1 / 2) * (shakeI * 50) * nb)
      else none)]
  else []

/-- renderLoop background stage (lines 1078-1095). -/
def liveBgSeg (bgPresent shake : Bool) (shakeI bgDim nb time : ℚ) (T : TrigModel)
    (rand : ℕ → ℚ) : List Cmd :=
  if bgPresent then
    [Cmd.bg (1 - bgDim) (1 + T.sin (time * (1 / 2)) * (1 / 20))
      (if shake && decide (3 / 5 - shakeI * (3 / 10) < nb) then
        some ((rand 0 - 1 / 2) * (shakeI * 50) * nb, (rand 1 - 1 / 2) * (shakeI * 50) * nb)
      else none)]
  else []

/-- renderOffline preset stage (lines 629-665). -/
def offPresetSeg (p : PresetType) (shake : Bool) (shakeI nb : ℚ)
    (rand : ℕ → ℚ) : List Cmd :=
  [Cmd.presetDraw p
    (if shake && decide ((3 : ℚ) / 5 < nb) then
      some ((rand 2 - 1 / 2) * (shakeI * 30) * nb, (rand 3 - 1 / 2) * (shakeI * 30) * nb)
    else none)]

/-- renderLoop preset stage (lines 1098-1136). -/
def livePresetSeg (p : PresetType) (shake : Bool) (shakeI nb : ℚ)
    (rand : ℕ → ℚ) : List Cmd :=
  [Cmd.presetDraw p
    (if shake && decide ((3 : ℚ) / 5 < nb) then
      some ((rand 2 - 1 / 2) * (shakeI * 30) * nb, (rand 3 - 1 / 2) * (shakeI * 30) * nb)
    else none)]

/-- renderOffline album-art stage (lines 669-685): drawn only when the
preset is one of the four ring presets and the pre-decoded album image is
available. -/
def offAlbumSeg (p : PresetType) (albumLoaded : Bool) (pulse : ℚ)
    (primary : String) : List Cmd :=
  if (p = PresetType.ncsCircle ∨ p = PresetType.hexagon ∨ p = PresetType.orbital ∨
      p = PresetType.shockwave) ∧ albumLoaded = true then
    [Cmd.albumRing pulse primary, Cmd.albumImage]
  else []

/-- renderLoop album-art stage (lines 1140-1147 and drawAlbumArt): for the
four ring presets the ring is always drawn; the disc shows the decoded image
when available and a dark placeholder otherwise. -/
def liveAlbumSeg (p : PresetType) (albumLoaded : Bool) (pulse : ℚ)
    (primary : String) : List Cmd :=
  if p = PresetType.ncsCircle ∨ p = PresetType.hexagon ∨ p = PresetType.orbital ∨
      p = PresetType.shockwave then
    Cmd.albumRing pulse primary ::
      (if albumLoaded then [Cmd.albumImage] else [Cmd.albumPlaceholder])
  else []

/-- renderOffline pixelate stage (lines 688-701). -/
def offPixelSeg (enabled : Bool) (pixelI : ℚ) : List Cmd :=
  if enabled then [Cmd.pixelate (max 4 (Int.toNat ⌊16 * pixelI⌋))] else []

/-- renderLoop pixelate stage (lines 1150-1163). -/
def livePixelSeg (enabled : Bool) (pixelI : ℚ) : List Cmd :=
  if enabled then [Cmd.pixelate (max 4 (Int.toNat ⌊16 * pixelI⌋))] else []

/-- renderOffline text stage (lines 704-715): layers in list order; the
layer with id "1" pulses only under the Minimal preset. -/
def offTextSeg (texts : List TextLayer) (p : PresetType) (pulse : ℚ) : List Cmd :=
  texts.map fun layer =>
    Cmd.textDraw layer
      (if layer.id = "1" ∧ p = PresetType.minimal then layer.size * pulse else layer.size)

/-- renderLoop text stage (lines 1166-1180). -/
def liveTextSeg (texts : List TextLayer) (p : PresetType) (pulse : ℚ) : List Cmd :=
  texts.map fun layer =>
    Cmd.textDraw layer
      (if layer.id = "1" ∧ p = PresetType.minimal then layer.size * pulse else layer.size)

/-- renderOffline scanlines stage (lines 720-725). -/
def offScanSeg (scan cctv : Bool) (scanI : ℚ) : List Cmd :=
  if scan || cctv then [Cmd.scanlines (scanI * (4 / 5))] else []

/-- renderLoop scanlines stage (lines 1187-1192). -/
def liveScanSeg (scan cctv : Bool) (scanI : ℚ) : List Cmd :=
  if scan || cctv then [Cmd.scanlines (scanI * (4 / 5))] else []

/-- renderOffline VHS and chromatic-aberration stage (lines 727-736); the
glitch toggle probabilistically forces it. -/
def offChromaSeg (vhs chromatic glitch : Bool) (vhsI chromaI glitchI nb : ℚ)
    (rand : ℕ → ℚ) : List Cmd :=
  if vhs || chromatic || (glitch && decide (1 - glitchI < rand 4)) then
    [Cmd.chroma (10 * (if vhs then vhsI else chromaI) * nb)
      (if vhs then vhsI else chromaI)]
  else []

/-- renderLoop VHS and chromatic-aberration stage (lines 1195-1209). -/
def liveChromaSeg (vhs chromatic glitch : Bool) (vhsI chromaI glitchI nb : ℚ)
    (rand : ℕ → ℚ) : List Cmd :=
  if vhs || chromatic || (glitch && decide (1 - glitchI < rand 4)) then
    [Cmd.chroma (10 * (if vhs then vhsI else chromaI) * nb)
      (if vhs then vhsI else chromaI)]
  else []

/-- renderOffline glitch stage (lines 738-741): only the random colored
block. -/
def offGlitchSeg (glitch : Bool) (glitchI w h : ℚ) (primary : String)
    (rand : ℕ → ℚ) : List Cmd :=
  if glitch && decide (1 - glitchI < rand 5) then
    [Cmd.glitchBlock (if (1 : ℚ) / 2 < rand 6 then primary else "#fff")
      (rand 7 * w) (rand 8 * h) (rand 9 * 200)]
  else []

/-- renderLoop glitch stage (lines 1212-1222): a sliced horizontally offset
redraw of the frame followed by the random colored block. -/
def liveGlitchSeg (glitch : Bool) (glitchI w h : ℚ) (primary : String)
    (rand : ℕ → ℚ) : List Cmd :=
  if glitch && decide (1 - glitchI < rand 5) then
    [Cmd.glitchSlice (rand 10 * 50) (rand 11 * h) ((rand 12 - 1 / 2) * 40 * glitchI),
     Cmd.glitchBlock (if (1 : ℚ) / 2 < rand 6 then primary else "#fff")
      (rand 7 * w) (rand 8 * h) (rand 9 * 200)]
  else []

/-- renderOffline CCTV stage (lines 743-756): green tint and vignette only. -/
def offCctvSeg (cctv : Bool) (cctvI : ℚ) : List Cmd :=
  if cctv then [Cmd.cctvTint ((2 / 5) * cctvI), Cmd.cctvVignette] else []

/-- renderLoop CCTV stage (lines 1225-1247): tint, vignette, then the
wall-clock date stamp and the REC marker. -/
def liveCctvSeg (cctv : Bool) (cctvI : ℚ) (now : String) : List Cmd :=
  if cctv then
    [Cmd.cctvTint ((2 / 5) * cctvI), Cmd.cctvVignette, Cmd.cctvText now,
     Cmd.cctvText "REC"]
  else []

/-- renderOffline bloom stage (lines 759-768). -/
def offBloomSeg (bloom : Bool) (bloomI : ℚ) : List Cmd :=
  if bloom then [Cmd.bloom bloomI] else []

/-- renderLoop bloom stage (lines 1250-1259). -/
def liveBloomSeg (bloom : Bool) (bloomI : ℚ) : List Cmd :=
  if bloom then [Cmd.bloom bloomI] else []

/-- renderOffline film-grain stage (lines 771-783): every 16th byte. -/
def offGrainSeg (grain : Bool) (grainI : ℚ) : List Cmd :=
  if grain then [Cmd.filmGrain 16 (grainI * 50)] else []

/-- renderLoop film-grain stage (lines 1262-1274): every 4th byte. -/
def liveGrainSeg (grain : Bool) (grainI : ℚ) : List Cmd :=
  if grain then [Cmd.filmGrain 4 (grainI * 50)] else []

/-- renderOffline strobe stage (lines 786-791). -/
def offStrobeSeg (strobe : Bool) (strobeI nb : ℚ) : List Cmd :=
  if strobe && decide (7 / 10 - strobeI * (3 / 10) < nb) then
    [Cmd.strobe (strobeI * nb * (4 / 5))]
  else []

/-- renderLoop strobe stage (lines 1277-1282). -/
def liveStrobeSeg (strobe : Bool) (strobeI nb : ℚ) : List Cmd :=
  if strobe && decide (7 / 10 - strobeI * (3 / 10) < nb) then
    [Cmd.strobe (strobeI * nb * (4 / 5))]
  else []

/-- renderOffline vignette stage (lines 794-801). -/
def offVigSeg (vig : Bool) (vigI : ℚ) : List Cmd :=
  if vig then [Cmd.vignette ((4 / 5) * vigI)] else []

/-- renderLoop vignette stage (lines 1285-1292). -/
def liveVigSeg (vig : Bool) (vigI : ℚ) : List Cmd :=
  if vig then [Cmd.vignette ((4 / 5) * vigI)] else []

/-- renderOffline hue-shift stage (lines 804-809). -/
def offHueSeg (hue : Bool) (hueI nb : ℚ) : List Cmd :=
  if hue then [Cmd.hueShift (hueI * 360 * (1 + nb * (1 / 2)))] else []

/-- renderLoop hue-shift stage (lines 1294-1300). -/
def liveHueSeg (hue : Bool) (hueI nb : ℚ) : List Cmd :=
  if hue then [Cmd.hueShift (hueI * 360 * (1 + nb * (1 / 2)))] else []

/-- renderOffline letterbox stage (lines 812-817). -/
def offLetterSeg (letter : Bool) (letterI h : ℚ) : List Cmd :=
  if letter then [Cmd.letterbox (h * (12 / 100) * letterI)] else []

/-- renderLoop letterbox stage (lines 1302-1308). -/
def liveLetterSeg (letter : Bool) (letterI h : ℚ) : List Cmd :=
  if letter then [Cmd.letterbox (h * (12 / 100) * letterI)] else []

/-- The per-frame stage list of renderOffline (lines 585-817).  Inputs that
renderOffline acquires before its frame loop (whether a background source
and a decoded album-art image are available) are passed as booleans. -/
def offlineFrameCmds (w h : ℚ) (cfg : VisualizerConfig) (eff : EffectConfig)
    (ints : EffectIntensities) (texts : List TextLayer) (data : List ℕ)
    (time : ℚ) (bgPresent albumLoaded : Bool) (T : TrigModel)
    (rand : ℕ → ℚ) : List Cmd :=
  let bass := (∑ i in Finset.range 20, (data.getD i 0 : ℚ)) / 20
  let nb := bass / 255
  let pulse := 1 + nb * (3 / 20)
  [Cmd.clear]
    ++ offBgSeg bgPresent eff.shake ints.shake cfg.bgDim nb time T rand
    ++ offPresetSeg cfg.preset eff.shake ints.shake nb rand
    ++ [Cmd.particles cfg.particleCount cfg.primaryColor]
    ++ offAlbumSeg cfg.preset albumLoaded pulse cfg.primaryColor
    ++ offPixelSeg eff.pixelate ints.pixelate
    ++ offTextSeg texts cfg.preset pulse
    ++ offScanSeg eff.scanlines eff.cctv ints.scanlines
    ++ offChromaSeg eff.vhs eff.chromatic eff.glitch ints.vhs ints.chromatic
        ints.glitch nb rand
    ++ offGlitchSeg eff.glitch ints.glitch w h cfg.primaryColor rand
    ++ offCctvSeg eff.cctv ints.cctv
    ++ offBloomSeg eff.bloom ints.bloom
    ++ offGrainSeg eff.filmGrain ints.filmGrain
    ++ offStrobeSeg eff.strobe ints.strobe nb
    ++ offVigSeg eff.vignette ints.vignette
    ++ offHueSeg eff.hueShift ints.hueShift nb
    ++ offLetterSeg eff.letterbox ints.letterbox h

/-- The per-frame stage list of renderLoop (lines 1068-1308); `now` is the
wall-clock string that the CCTV overlay stamps. -/
def liveFrameCmds (w h : ℚ) (cfg : VisualizerConfig) (eff : EffectConfig)
    (ints : EffectIntensities) (texts : List TextLayer) (data : List ℕ)
    (time : ℚ) (bgPresent albumLoaded : Bool) (T : TrigModel)
    (rand : ℕ → ℚ) (now : String) : List Cmd :=
  let bass := (∑ i in Finset.range 20, (data.getD i 0 : ℚ)) / 20
  let nb := bass / 255
  let pulse := 1 + nb * (3 / 20)
  [Cmd.clear]
    ++ liveBgSeg bgPresent eff.shake ints.shake cfg.bgDim nb time T rand
    ++ livePresetSeg cfg.preset eff.shake ints.shake nb rand
    ++ [Cmd.particles cfg.particleCount cfg.primaryColor]
    ++ liveAlbumSeg cfg.preset albumLoaded pulse cfg.primaryColor
    ++ livePixelSeg eff.pixelate ints.pixelate
    ++ liveTextSeg texts cfg.preset pulse
    ++ liveScanSeg eff.scanlines eff.cctv ints.scanlines
    ++ liveChromaSeg eff.vhs eff.chromatic eff.glitch ints.vhs ints.chromatic
        ints.glitch nb rand
    ++ liveGlitchSeg eff.glitch ints.glitch w h cfg.primaryColor rand
    ++ liveCctvSeg eff.cctv ints.cctv now
    ++ liveBloomSeg eff.bloom ints.bloom
    ++ liveGrainSeg eff.filmGrain ints.filmGrain
    ++ liveStrobeSeg eff.strobe ints.strobe nb
    ++ liveVigSeg eff.vignette ints.vignette
    ++ liveHueSeg eff.hueShift ints.hueShift nb
    ++ liveLetterSeg eff.letterbox ints.letterbox h

/-! ## Claim C2: live and offline stage sequences -/

/-- The normalization induced by the divergences claim C2 permits: the CCTV
wall-clock overlay text is dropped and the film-grain stride is erased.
(The spectrum input and the final sink are inputs and outputs of the
compared functions, not stages.) -/
def c2Erase : Cmd → Option Cmd
  | Cmd.cctvText _ => .none
  | Cmd.filmGrain _ amount => .some (Cmd.filmGrain 0 amount)
  | c => .some c

/-- The amended normalization: additionally drop the live-only glitch slice
redraw. -/
def c2EraseAmended : Cmd → Option Cmd
  | Cmd.cctvText _ => .none
  | Cmd.glitchSlice _ _ _ => .none
  | Cmd.filmGrain _ amount => .some (Cmd.filmGrain 0 amount)
  | c => .some c

lemma bgSeg_eq (bgPresent shake : Bool) (shakeI bgDim nb time : ℚ) (T : TrigModel)
    (rand : ℕ → ℚ) :
    offBgSeg bgPresent shake shakeI bgDim nb time T rand
      = liveBgSeg bgPresent shake shakeI bgDim nb time T rand := rfl

lemma presetSeg_eq (p : PresetType) (shake : Bool) (shakeI nb : ℚ) (rand : ℕ → ℚ) :
    offPresetSeg p shake shakeI nb rand = livePresetSeg p shake shakeI nb rand := rfl

lemma pixelSeg_eq (enabled : Bool) (pixelI : ℚ) :
    offPixelSeg enabled pixelI = livePixelSeg enabled pixelI := rfl

lemma textSeg_eq (texts : List TextLayer) (p : PresetType) (pulse : ℚ) :
    offTextSeg texts p pulse = liveTextSeg texts p pulse := rfl

lemma scanSeg_eq (scan cctv : Bool) (scanI : ℚ) :
    offScanSeg scan cctv scanI = liveScanSeg scan cctv scanI := rfl

lemma chromaSeg_eq (vhs chromatic glitch : Bool) (vhsI chromaI glitchI nb : ℚ)
    (rand : ℕ → ℚ) :
    offChromaSeg vhs chromatic glitch vhsI chromaI glitchI nb rand
      = liveChromaSeg vhs chromatic glitch vhsI chromaI glitchI nb rand := rfl

lemma bloomSeg_eq (bloom : Bool) (bloomI : ℚ) :
    offBloomSeg bloom bloomI = liveBloomSeg bloom bloomI := rfl

lemma strobeSeg_eq (strobe : Bool) (strobeI nb : ℚ) :
    offStrobeSeg strobe strobeI nb = liveStrobeSeg strobe strobeI nb := rfl

lemma vigSeg_eq (vig : Bool) (vigI : ℚ) :
    offVigSeg vig vigI = liveVigSeg vig vigI := rfl

lemma hueSeg_eq (hue : Bool) (hueI nb : ℚ) :
    offHueSeg hue hueI nb = liveHueSeg hue hueI nb := rfl

lemma letterSeg_eq (letter : Bool) (letterI h : ℚ) :
    offLetterSeg letter letterI h = liveLetterSeg letter letterI h := rfl

lemma albumSeg_erase (p : PresetType) (pulse : ℚ) (primary : String) :
    (offAlbumSeg p true pulse primary).filterMap c2EraseAmended
      = (liveAlbumSeg p true pulse primary).filterMap c2EraseAmended := by
  unfold offAlbumSeg liveAlbumSeg
  by_cases hp : p = PresetType.ncsCircle ∨ p = PresetType.hexagon ∨
      p = PresetType.orbital ∨ p = PresetType.shockwave <;>
    simp [hp, c2EraseAmended]

lemma glitchSeg_erase (glitch : Bool) (glitchI w h : ℚ) (primary : String)
    (rand : ℕ → ℚ) :
    (offGlitchSeg glitch glitchI w h primary rand).filterMap c2EraseAmended
      = (liveGlitchSeg glitch glitchI w h primary rand).filterMap c2EraseAmended := by
  unfold offGlitchSeg liveGlitchSeg
  by_cases hg : (glitch && decide (1 - glitchI < rand 5)) = true <;>
    simp [hg, c2EraseAmended]

lemma cctvSeg_erase (cctv : Bool) (cctvI : ℚ) (now : String) :
    (offCctvSeg cctv cctvI).filterMap c2EraseAmended
      = (liveCctvSeg cctv cctvI now).filterMap c2EraseAmended := by
  cases cctv <;> simp [offCctvSeg, liveCctvSeg, c2EraseAmended]

lemma grainSeg_erase (grain : Bool) (grainI : ℚ) :
    (offGrainSeg grain grainI).filterMap c2EraseAmended
      = (liveGrainSeg grain grainI).filterMap c2EraseAmended := by
  cases grain <;> simp [offGrainSeg, liveGrainSeg, c2EraseAmended]

/-- Claim C2 (amended): for every frame input on which the album art has
decoded, the offline export pipeline and the live render loop execute the
identical stage sequence with identical parameters, up to the divergences
of the code: the spectrum input and the final sink (inputs and outputs of
these functions), the CCTV wall-clock and REC overlay (live only), the
film-grain stride (16 offline, 4 live), and the glitch slice redraw (live
only), all erased here by the normalization. -/
theorem c2_stage_sequences (w h : ℚ) (cfg : VisualizerConfig) (eff : EffectConfig)
    (ints : EffectIntensities) (texts : List TextLayer) (data : List ℕ)
    (time : ℚ) (bgPresent : Bool) (T : TrigModel) (rand : ℕ → ℚ) (now : String) :
    (offlineFrameCmds w h cfg eff ints texts data time bgPresent true T rand).filterMap
        c2EraseAmended
      = (liveFrameCmds w h cfg eff ints texts data time bgPresent true T rand now).filterMap
        c2EraseAmended := by
  unfold offlineFrameCmds liveFrameCmds
  simp only [List.filterMap_append, bgSeg_eq, presetSeg_eq, pixelSeg_eq, textSeg_eq,
    scanSeg_eq, chromaSeg_eq, bloomSeg_eq, strobeSeg_eq, vigSeg_eq, hueSeg_eq,
    letterSeg_eq, albumSeg_erase, glitchSeg_erase, grainSeg_erase]
  rw [cctvSeg_erase eff.cctv ints.cctv now]

/-- Concrete configuration for the claim C2 counterexample. -/
def c2ExCfg : VisualizerConfig :=
  ⟨PresetType.minimal, "#ec4899", "#3b82f6", 3 / 5, 50⟩

/-- Effect toggles for the claim C2 counterexample: glitch only. -/
def c2ExEff : EffectConfig :=
  ⟨false, true, false, false, false, false, false, false, false, false, false, false, false⟩

/-- All intensities at 1 for the claim C2 counterexample. -/
def c2ExInts : EffectIntensities := ⟨1, 1, 1, 1, 1, 1, 1, 1, 1, 1, 1, 1, 1⟩

/-- Trivial trig interpretation for the claim C2 counterexample. -/
def c2ExTrig : TrigModel := ⟨fun _ => 0, fun _ => 0, 0⟩

/-- Claim C2 (counterexample): with only the glitch effect enabled at
intensity 1 (so its trigger always fires), the live loop redraws a sliced
strip of the frame that the offline pipeline never draws; erasing only the
divergences the claim permits (CCTV overlay text, film-grain stride), the
two stage sequences differ. -/
theorem c2_counterexample :
    ¬ ((offlineFrameCmds 1920 1080 c2ExCfg c2ExEff c2ExInts [] [] 0 false true
          c2ExTrig (fun _ => 1 / 2)).filterMap c2Erase
      = (liveFrameCmds 1920 1080 c2ExCfg c2ExEff c2ExInts [] [] 0 false true
          c2ExTrig (fun _ => 1 / 2) "NOW").filterMap c2Erase) := by
  norm_num [offlineFrameCmds, liveFrameCmds, c2ExCfg, c2ExEff, c2ExInts, c2ExTrig,
    offBgSeg, liveBgSeg, offPresetSeg, livePresetSeg, offAlbumSeg, liveAlbumSeg,
    offPixelSeg, livePixelSeg, offTextSeg, liveTextSeg, offScanSeg, liveScanSeg,
    offChromaSeg, liveChromaSeg, offGlitchSeg, liveGlitchSeg, offCctvSeg, liveCctvSeg,
    offBloomSeg, liveBloomSeg, offGrainSeg, liveGrainSeg, offStrobeSeg, liveStrobeSeg,
    offVigSeg, liveVigSeg, offHueSeg, liveHueSeg, offLetterSeg, liveLetterSeg, c2Erase]
  simp [show ¬(PresetType.minimal = PresetType.ncsCircle ∨
      PresetType.minimal = PresetType.hexagon ∨ PresetType.minimal = PresetType.orbital ∨
      PresetType.minimal = PresetType.shockwave) from by decide, c2Erase]

/-! ## Claim C6: the compositor with every toggle off -/

/-- The unique EffectConfig with all 13 toggles false. -/
def effectsAllOff : EffectConfig :=
  ⟨false, false, false, false, false, false, false, false, false, false, false,
   false, false⟩

/-- The base drawing of one offline frame: clear, background (no shake),
preset output (no shake), particles, album-art inlay, text layers --
nothing else. -/
def baseOfflineFrameCmds (cfg : VisualizerConfig)
    (texts : List TextLayer) (data : List ℕ) (time : ℚ)
    (bgPresent albumLoaded : Bool) (T : TrigModel) : List Cmd :=
  let bass := (∑ i in Finset.range 20, (data.getD i 0 : ℚ)) / 20
  let nb := bass / 255
  let pulse := 1 + nb * (3 / 20)
  [Cmd.clear]
    ++ (if bgPresent then
          [Cmd.bg (1 - cfg.bgDim) (1 + T.sin (time * (1 / 2)) * (1 / 20)) none]
        else [])
    ++ [Cmd.presetDraw cfg.preset none]
    ++ [Cmd.particles cfg.particleCount cfg.primaryColor]
    ++ offAlbumSeg cfg.preset albumLoaded pulse cfg.primaryColor
    ++ offTextSeg texts cfg.preset pulse

/-- The base drawing of one live frame; it differs from the offline base
only in the album-art placeholder fallback. -/
def baseLiveFrameCmds (cfg : VisualizerConfig)
    (texts : List TextLayer) (data : List ℕ) (time : ℚ)
    (bgPresent albumLoaded : Bool) (T : TrigModel) : List Cmd :=
  let bass := (∑ i in Finset.range 20, (data.getD i 0 : ℚ)) / 20
  let nb := bass / 255
  let pulse := 1 + nb * (3 / 20)
  [Cmd.clear]
    ++ (if bgPresent then
          [Cmd.bg (1 - cfg.bgDim) (1 + T.sin (time * (1 / 2)) * (1 / 20)) none]
        else [])
    ++ [Cmd.presetDraw cfg.preset none]
    ++ [Cmd.particles cfg.particleCount cfg.primaryColor]
    ++ liveAlbumSeg cfg.preset albumLoaded pulse cfg.primaryColor
    ++ liveTextSeg texts cfg.preset pulse

/-- Claim C6: when all 13 effect toggles are false, both per-frame
pipelines draw exactly the background, the preset output, the particles,
the album-art inlay and the text layers; every post-processing stage
contributes nothing, whatever the intensities are. -/
theorem c6_compositor_identity (w h : ℚ) (cfg : VisualizerConfig)
    (ints : EffectIntensities) (texts : List TextLayer) (data : List ℕ)
    (time : ℚ) (bgPresent albumLoaded : Bool) (T : TrigModel)
    (rand : ℕ → ℚ) (now : String) :
    offlineFrameCmds w h cfg effectsAllOff ints texts data time bgPresent
        albumLoaded T rand
      = baseOfflineFrameCmds cfg texts data time bgPresent albumLoaded T ∧
    liveFrameCmds w h cfg effectsAllOff ints texts data time bgPresent
        albumLoaded T rand now
      = baseLiveFrameCmds cfg texts data time bgPresent albumLoaded T := by
  constructor <;>
    simp [offlineFrameCmds, liveFrameCmds, baseOfflineFrameCmds, baseLiveFrameCmds,
      effectsAllOff, offBgSeg, liveBgSeg, offPresetSeg, livePresetSeg,
      offPixelSeg, livePixelSeg, offScanSeg, liveScanSeg, offChromaSeg,
      liveChromaSeg, offGlitchSeg, liveGlitchSeg, offCctvSeg, liveCctvSeg,
      offBloomSeg, liveBloomSeg, offGrainSeg, liveGrainSeg, offStrobeSeg,
      liveStrobeSeg, offVigSeg, liveVigSeg, offHueSeg, liveHueSeg, offLetterSeg,
      liveLetterSeg]

/-! ## The offline frame loop (claims C5 and C10)

renderOffline reads configRef, effectsRef, intensitiesRef and textLayersRef
exactly once, just before its frame loop (lines 560-563); the loop then
renders every frame index below totalFrames from those snapshots.  The
mutable refs are modelled as time-indexed sequences, read at index 0. -/

/-- Line 567: `frequencyDataFrames[frameIndex] || new Uint8Array(1024)` --
a missing frame is replaced by an all-zero 1024-bin spectrum. -/
def offlineFrameSpectrum (frames : List (List ℕ)) (i : ℕ) : List ℕ :=
  frames.getD i (List.replicate 1024 0)

/-- The frame loop of renderOffline (lines 560-829): one stage list per
frame index, all rendered from the snapshots taken at loop entry (index 0
of each ref sequence), on the fixed 1920 x 1080 export canvas, at time
frameIndex / fps.  Each frame gets its own random oracle. -/
def renderOfflineFrames (cfgAt : ℕ → VisualizerConfig) (effAt : ℕ → EffectConfig)
    (intsAt : ℕ → EffectIntensities) (textsAt : ℕ → List TextLayer)
    (freqFrames : List (List ℕ)) (totalFrames fps : ℕ)
    (bgPresent albumLoaded : Bool) (T : TrigModel)
    (rand : ℕ → ℕ → ℚ) : List (List Cmd) :=
  let currentConfig := cfgAt 0
  let currentEffects := effAt 0
  let currentIntensities := intsAt 0
  let currentTexts := textsAt 0
  (List.range totalFrames).map fun frameIndex =>
    offlineFrameCmds 1920 1080 currentConfig currentEffects currentIntensities
      currentTexts (offlineFrameSpectrum freqFrames frameIndex)
      ((frameIndex : ℚ) / (fps : ℚ)) bgPresent albumLoaded T (rand frameIndex)

/-- Claim C5: the export pipeline snapshots VisualizerConfig,
EffectConfig, EffectIntensities and the TextLayer list once at pipeline
start; any mutation of those refs after index 0 (that is, while the export
is in flight) leaves every rendered frame unchanged. -/
theorem c5_snapshot_isolation (cfgAt cfgAt2 : ℕ → VisualizerConfig)
    (effAt effAt2 : ℕ → EffectConfig) (intsAt intsAt2 : ℕ → EffectIntensities)
    (textsAt textsAt2 : ℕ → List TextLayer) (freqFrames : List (List ℕ))
    (totalFrames fps : ℕ) (bgPresent albumLoaded : Bool) (T : TrigModel)
    (rand : ℕ → ℕ → ℚ)
    (hc : cfgAt 0 = cfgAt2 0) (he : effAt 0 = effAt2 0)
    (hi : intsAt 0 = intsAt2 0) (ht : textsAt 0 = textsAt2 0) :
    renderOfflineFrames cfgAt effAt intsAt textsAt freqFrames totalFrames fps
        bgPresent albumLoaded T rand
      = renderOfflineFrames cfgAt2 effAt2 intsAt2 textsAt2 freqFrames totalFrames
        fps bgPresent albumLoaded T rand := by
  unfold renderOfflineFrames
  rw [hc, he, hi, ht]

/-- A default configuration for the claim C5 witness. -/
def c5Cfg : VisualizerConfig := ⟨PresetType.ncsCircle, "#ec4899", "#3b82f6", 3 / 5, 50⟩

/-- A mutated configuration for the claim C5 witness. -/
def c5CfgMut : VisualizerConfig := ⟨PresetType.minimal, "#ffffff", "#000000", 0, 0⟩

/-- A text layer for the claim C5 witness. -/
def c5Text : TextLayer := ⟨"1", "Title", 50, 85, 52, "#ffffff", "Inter"⟩

/-- Witness for claim C5: mutating every ref from frame 1 on does not
change the export. -/
theorem c5_snapshot_isolation_witness :
    ((fun i => if i = 0 then c5Cfg else c5CfgMut) 0 = (fun _ => c5Cfg) 0) ∧
    ((fun i => if i = 0 then effectsAllOff else c2ExEff) 0
      = (fun _ => effectsAllOff) 0) ∧
    ((fun i => if i = 0 then c2ExInts else EffectIntensities.mk 0 0 0 0 0 0 0 0 0 0 0 0 0) 0
      = (fun _ => c2ExInts) 0) ∧
    ((fun i => if i = 0 then [c5Text] else []) 0 = (fun _ => [c5Text]) 0) ∧
    renderOfflineFrames (fun i => if i = 0 then c5Cfg else c5CfgMut)
        (fun i => if i = 0 then effectsAllOff else c2ExEff)
        (fun i => if i = 0 then c2ExInts else EffectIntensities.mk 0 0 0 0 0 0 0 0 0 0 0 0 0)
        (fun i => if i = 0 then [c5Text] else [])
        [] 2 30 false true c2ExTrig (fun _ _ => 1 / 2)
      = renderOfflineFrames (fun _ => c5Cfg) (fun _ => effectsAllOff)
        (fun _ => c2ExInts) (fun _ => [c5Text])
        [] 2 30 false true c2ExTrig (fun _ _ => 1 / 2) :=
  ⟨rfl, rfl, rfl, rfl,
   c5_snapshot_isolation _ _ _ _ _ _ _ _ _ _ _ _ _ _ _ rfl rfl rfl rfl⟩

/-- Claim C10: when the analysis produced no frame for an index the loop
reaches, the renderer substitutes the all-zero 1024-bin spectrum, and the
frame loop still produces one rendered frame for every index below
totalFrames -- the export continues instead of failing. -/
theorem c10_missing_frame_fallback (frames : List (List ℕ)) (i : ℕ)
    (h : frames.length ≤ i) :
    offlineFrameSpectrum frames i = List.replicate 1024 0 ∧
    ∀ (cfgAt : ℕ → VisualizerConfig) (effAt : ℕ → EffectConfig)
      (intsAt : ℕ → EffectIntensities) (textsAt : ℕ → List TextLayer)
      (totalFrames fps : ℕ) (bgPresent albumLoaded : Bool) (T : TrigModel)
      (rand : ℕ → ℕ → ℚ),
      (renderOfflineFrames cfgAt effAt intsAt textsAt frames totalFrames fps
          bgPresent albumLoaded T rand).length = totalFrames := by
  refine ⟨?_, ?_⟩
  · unfold offlineFrameSpectrum
    exact List.getD_eq_default _ _ h
  · intros
    simp [renderOfflineFrames]

/-- Witness for claim C10: an empty analysis output at frame index 0. -/
theorem c10_missing_frame_fallback_witness :
    ([] : List (List ℕ)).length ≤ 0 ∧
    (offlineFrameSpectrum [] 0 = List.replicate 1024 0 ∧
     ∀ (cfgAt : ℕ → VisualizerConfig) (effAt : ℕ → EffectConfig)
       (intsAt : ℕ → EffectIntensities) (textsAt : ℕ → List TextLayer)
       (totalFrames fps : ℕ) (bgPresent albumLoaded : Bool) (T : TrigModel)
       (rand : ℕ → ℕ → ℚ),
       (renderOfflineFrames cfgAt effAt intsAt textsAt [] totalFrames fps
           bgPresent albumLoaded T rand).length = totalFrames) :=
  ⟨Nat.le_refl 0, c10_missing_frame_fallback [] 0 (Nat.le_refl 0)⟩

/-! ## Claim C4: export progress

The progress values a successful export reports, in order: startRecording
sets 0; renderOffline sets 1, 2, 5, 10, 15 while loading and analyzing;
the frame loop sets 15 + Math.round(frameIndex / totalFrames * 55) at each
frameIndex divisible by 10 (lines 826-828); then 70, 75, 95, 98, 100
(lines 832-901).  The ffmpeg progress callback registered in loadFFmpeg
never fires a progress update: its closure captured exportStage while it
was still idle, so its stage test is permanently false. -/

/-- Math.round for the nonnegative arguments used here. -/
def jsRound (q : ℚ) : ℤ := ⌊q + 1 / 2⌋

/-- The progress values reported by the frame-capturing loop. -/
def captureProgressUpdates (totalFrames : ℕ) : List ℤ :=
  ((List.range totalFrames).filter (fun i => i % 10 = 0)).map
    (fun (i : ℕ) => 15 + jsRound ((i : ℚ) / (totalFrames : ℚ) * 55))

/-- All progress values reported over one successful export run, in order. -/
def exportProgressEvents (totalFrames : ℕ) : List ℤ :=
  [0, 1, 2, 5, 10, 15] ++ captureProgressUpdates totalFrames ++ [70, 75, 95, 98, 100]

lemma jsRound_capture_nonneg (i totalFrames : ℕ) :
    0 ≤ jsRound ((i : ℚ) / (totalFrames : ℚ) * 55) := by
  unfold jsRound
  have h : (0 : ℚ) ≤ (i : ℚ) / (totalFrames : ℚ) * 55 := by positivity
  exact Int.floor_nonneg.2 (by linarith)

lemma jsRound_capture_le (i totalFrames : ℕ) (h : i < totalFrames) :
    jsRound ((i : ℚ) / (totalFrames : ℚ) * 55) ≤ 55 := by
  unfold jsRound
  have htf : (0 : ℚ) < (totalFrames : ℚ) := by
    exact_mod_cast Nat.pos_of_ne_zero (by omega)
  have hlt : (i : ℚ) / (totalFrames : ℚ) < 1 := by
    rw [div_lt_one htf]
    exact_mod_cast h
  have h56 : ⌊(i : ℚ) / (totalFrames : ℚ) * 55 + 1 / 2⌋ < (56 : ℤ) := by
    refine Int.floor_lt.2 ?_
    push_cast
    nlinarith
  omega

lemma captureProgressUpdates_mem (v : ℤ) (totalFrames : ℕ)
    (hv : v ∈ captureProgressUpdates totalFrames) : 15 ≤ v ∧ v ≤ 70 := by
  unfold captureProgressUpdates at hv
  simp only [List.mem_map, List.mem_filter, List.mem_range] at hv
  obtain ⟨i, ⟨hrange, hmod⟩, rfl⟩ := hv
  constructor
  · have := jsRound_capture_nonneg i totalFrames
    omega
  · have := jsRound_capture_le i totalFrames hrange
    omega

lemma captureProgressUpdates_chain (totalFrames : ℕ) :
    List.Chain' (· ≤ ·) (captureProgressUpdates totalFrames) := by
  unfold captureProgressUpdates
  refine List.Pairwise.chain' ?_
  refine List.Pairwise.map _ ?_ (List.Pairwise.filter _ (List.pairwise_lt_range totalFrames))
  intro a b hab
  have hdiv : (a : ℚ) / (totalFrames : ℚ) ≤ (b : ℚ) / (totalFrames : ℚ) := by
    rcases Nat.eq_zero_or_pos totalFrames with h0 | hpos
    · subst h0
      norm_num
    · have htf : (0 : ℚ) < (totalFrames : ℚ) := by exact_mod_cast hpos
      have hab2 : (a : ℚ) ≤ (b : ℚ) := by exact_mod_cast hab.le
      exact (div_le_div_iff_of_pos_right htf).2 hab2
  have hfl : jsRound ((a : ℚ) / (totalFrames : ℚ) * 55)
      ≤ jsRound ((b : ℚ) / (totalFrames : ℚ) * 55) := by
    unfold jsRound
    exact Int.floor_le_floor (by linarith)
  omega

/-- Claim C4: over a successful export run the reported progress sequence
is monotonically non-decreasing, every update of the frame-capturing loop
lies in [15, 70], and the final reported value is exactly 100. -/
theorem c4_progress_monotone (totalFrames : ℕ) :
    List.Chain' (· ≤ ·) (exportProgressEvents totalFrames) ∧
    (∀ v ∈ captureProgressUpdates totalFrames, 15 ≤ v ∧ v ≤ 70) ∧
    (exportProgressEvents totalFrames).getLast? = some 100 := by
  refine ⟨?_, fun v hv => captureProgressUpdates_mem v totalFrames hv, ?_⟩
  · unfold exportProgressEvents
    rw [List.chain'_append]
    refine ⟨?_, by norm_num [List.chain'_cons], ?_⟩
    · rw [List.chain'_append]
      refine ⟨by norm_num [List.chain'_cons], captureProgressUpdates_chain totalFrames, ?_⟩
      intro x hx y hy
      rw [show ([0, 1, 2, 5, 10, 15] : List ℤ).getLast? = some 15 from rfl,
        Option.mem_def, Option.some.injEq] at hx
      subst hx
      have := captureProgressUpdates_mem y totalFrames (List.mem_of_mem_head? hy)
      omega
    · intro x hx y hy
      simp only [List.head?_cons, Option.mem_def, Option.some.injEq] at hy
      subst hy
      rcases hcap : captureProgressUpdates totalFrames with _ | ⟨a, rest⟩
      · rw [hcap, List.append_nil] at hx
        rw [show ([0, 1, 2, 5, 10, 15] : List ℤ).getLast? = some 15 from rfl,
          Option.mem_def, Option.some.injEq] at hx
        omega
      · rw [hcap, List.getLast?_append_of_ne_nil _ (by simp)] at hx
        obtain ⟨hne, rfl⟩ := List.mem_getLast?_eq_getLast hx
        have hxmem := List.getLast_mem hne
        have := captureProgressUpdates_mem _ totalFrames (by rw [hcap]; exact hxmem)
        omega
  · unfold exportProgressEvents
    rw [List.getLast?_append_of_ne_nil _ (by simp)]
    rfl

/-! ## Claim C3: the empty-encoder-output path

After encoding, renderOffline reads output.mp4 and throws
"FFmpeg produced an empty output file" when it is empty (lines 865-870),
before any download anchor is created; startRecording catches the throw
(lines 396-404), shows the generic alert "Video rendering failed. Please
try again.", and resets isExporting to false and exportStage to "idle".
The reachable exportStage values are exactly the string literals "idle",
"capturing" and "encoding" (line 150) -- the code has no failed state. -/

/-- The observable outcome of one export attempt. -/
structure ExportFinishResult where
  thrown : Option String
  alertMsg : Option String
  downloadTriggered : Bool
  finalStage : String
  finalIsExporting : Bool
deriving DecidableEq

/-- The tail of renderOffline after the encoder ran, as a function of the
length of the produced output buffer: an empty output throws before the
download is triggered; otherwise the download is triggered. -/
def renderOfflineTail (outputLen : ℕ) : Except String Bool :=
  if outputLen = 0 then Except.error "FFmpeg produced an empty output file"
  else Except.ok true

/-- startRecording around renderOffline: a thrown error is caught, an alert
is shown and the job resets to the idle stage; on success the stage also
returns to idle after the completion delay. -/
def startRecordingFinish (outputLen : ℕ) : ExportFinishResult :=
  match renderOfflineTail outputLen with
  | Except.error e =>
      { thrown := some e
        alertMsg := some "Video rendering failed. Please try again."
        downloadTriggered := false
        finalStage := "idle"
        finalIsExporting := false }
  | Except.ok dl =>
      { thrown := none
        alertMsg := none
        downloadTriggered := dl
        finalStage := "idle"
        finalIsExporting := false }

/-- Claim C3 (counterexample): on an empty encoder output the job does not
end in a "failed" stage -- no such stage exists; it resets to "idle", and
the user-facing alert is the generic one, not the "produced an empty
output" message (which is only thrown and logged). -/
theorem c3_counterexample :
    ¬ ((startRecordingFinish 0).finalStage = "failed" ∧
       (startRecordingFinish 0).alertMsg
          = some "FFmpeg produced an empty output file" ∧
       (startRecordingFinish 0).downloadTriggered = false) := by
  intro h
  exact absurd h.1 (by decide)

/-- Claim C3 (amended): on an empty encoder output the export throws the
error "FFmpeg produced an empty output file" before any download is
triggered, the user sees the generic failure alert, and the job resets to
the "idle" stage with isExporting false. -/
theorem c3_empty_output_aborts :
    startRecordingFinish 0
      = { thrown := some "FFmpeg produced an empty output file"
          alertMsg := some "Video rendering failed. Please try again."
          downloadTriggered := false
          finalStage := "idle"
          finalIsExporting := false } := rfl

end VideoGen
